import Mathlib

/-
  Verification of the BudgetEase data-access layer (src/main.py).

  The Python source is a FastAPI app over a SQLAlchemy store with three
  tables (users, transactions, budgets).  We embed the store as explicit
  lists of records and each endpoint as a pure Lean function over that
  state.  Monetary amounts (Python floats) are modelled as rationals.
  Python naive datetimes are modelled as calendar fields (year, month,
  day) plus the time elapsed since midnight, compared lexicographically,
  exactly as datetime comparison behaves.

  Error signals: raising HTTPException(404) is Err.httpNotFound; Python
  runtime faults that the endpoints can hit are Err.attrOnNone (attribute
  access on None, e.g. db_budget.user_id when the budget query returned
  None) and Err.typeOnNone (a TypeError from comparing, subscripting or
  dividing None, e.g. a NULL SQL sum compared against a float).
-/

namespace BudgetEase

/-- Python naive datetime: calendar date plus time-of-day (microseconds
since midnight).  Comparison is lexicographic, as for datetime. -/
structure DT where
  year : Nat
  month : Nat
  day : Nat
  sod : Nat
  deriving DecidableEq

/-- Lexicographic datetime comparison, `a <= b`. -/
def DT.ble (a b : DT) : Bool :=
  if a.year ≠ b.year then a.year < b.year
  else if a.month ≠ b.month then a.month < b.month
  else if a.day ≠ b.day then a.day < b.day
  else a.sod ≤ b.sod

/-- Lexicographic datetime comparison, `a < b`. -/
def DT.blt (a b : DT) : Bool :=
  if a.year ≠ b.year then a.year < b.year
  else if a.month ≠ b.month then a.month < b.month
  else if a.day ≠ b.day then a.day < b.day
  else a.sod < b.sod

/-- Gregorian leap-year rule, as implemented by Python calendar/datetime. -/
def isLeap (y : Nat) : Bool := y % 4 == 0 && (y % 100 != 0 || y % 400 == 0)

/-- Number of days in a month of a given year. -/
def daysInMonth (y m : Nat) : Nat :=
  match m with
  | 1 => 31
  | 2 => if isLeap y then 29 else 28
  | 3 => 31
  | 4 => 30
  | 5 => 31
  | 6 => 30
  | 7 => 31
  | 8 => 31
  | 9 => 30
  | 10 => 31
  | 11 => 30
  | 12 => 31
  | _ => 30

/-- Advance a datetime by one day, rolling over month and year ends. -/
def addOneDay (d : DT) : DT :=
  if d.day < daysInMonth d.year d.month then { d with day := d.day + 1 }
  else if d.month < 12 then { d with month := d.month + 1, day := 1 }
  else { year := d.year + 1, month := 1, day := 1, sod := d.sod }

/-- `d + timedelta(days = n)`: advance a datetime by `n` exact days,
keeping the time-of-day (Python timedelta addition on naive datetimes). -/
def addDays : Nat → DT → DT
  | 0, d => d
  | n + 1, d => addDays n (addOneDay d)

/-- `d.replace(day = 1)`: Python datetime.replace keeps every other field,
in particular the time-of-day. -/
def replaceDay1 (d : DT) : DT := { d with day := 1 }

/-- The (year, month) following a given (year, month). -/
def nextMonth (y m : Nat) : Nat × Nat := if m = 12 then (y + 1, 1) else (y, m + 1)

/-- users table row. -/
structure User where
  id : Int
  name : String
  email : String
  deriving DecidableEq

/-- transactions table row; user_id is a nullable foreign key. -/
structure Transaction where
  id : Int
  description : String
  amount : Rat
  date : DT
  category : String
  user_id : Option Int
  deriving DecidableEq

/-- budgets table row; user_id is a nullable foreign key. -/
structure Budget where
  id : Int
  name : String
  amount : Rat
  category : String
  start_date : DT
  end_date : DT
  user_id : Option Int
  deriving DecidableEq

/-- The stored state: the three tables, each a list of rows in storage
order. -/
structure State where
  users : List User
  transactions : List Transaction
  budgets : List Budget
  deriving DecidableEq

/-- Outcomes other than a normal return: an HTTPException(404), an
AttributeError from touching an attribute of None, or a TypeError from
using None in a comparison, subscript or division. -/
inductive Err where
  | httpNotFound
  | attrOnNone
  | typeOnNone
  deriving DecidableEq

deriving instance DecidableEq for Except

/-- SQL equality between two nullable integer columns: NULL compares
false against everything, including NULL. -/
def optEq : Option Int → Option Int → Bool
  | some a, some b => a == b
  | _, _ => false

/-- SQL SUM over the amounts of the selected rows, as delivered by
query(func.sum(...)).scalar(): NULL (None) when no row is selected,
otherwise the sum. -/
def sqlSum : List Rat → Option Rat
  | [] => none
  | a :: l => some ((a :: l).sum)

/-- filter_transactions_by_date (src/main.py:130): rows with
start_date <= date and date <= end_date, both ends inclusive. -/
def filter_transactions_by_date (s : State) (start_date end_date : DT) : List Transaction :=
  s.transactions.filter (fun t => DT.ble start_date t.date && DT.ble t.date end_date)

/-- filter_transactions_by_category (src/main.py:135): rows whose
category matches exactly. -/
def filter_transactions_by_category (s : State) (category : String) : List Transaction :=
  s.transactions.filter (fun t => t.category == category)

/-- get_transactions_count_by_category (src/main.py:195): count of the
rows whose category matches exactly. -/
def get_transactions_count_by_category (s : State) (category : String) : Nat :=
  (s.transactions.filter (fun t => t.category == category)).length

/-- get_total_spent (src/main.py:145): SQL sum of the amounts of the
rows with user_id = the given id; None when the user has no rows. -/
def get_total_spent (s : State) (user_id : Int) : Option Rat :=
  sqlSum ((s.transactions.filter (fun t => optEq t.user_id (some user_id))).map Transaction.amount)

/-- delete_user (src/main.py:115): 404 when no user row matches,
otherwise session.delete on the loaded row.  SQLAlchemy relationship
cascade defaults to save-update/merge, so flushing the delete first
nulls out the user_id foreign key of every dependent Transaction and
Budget row, then deletes the user row. -/
def delete_user (s : State) (user_id : Int) : Except Err Unit × State :=
  match s.users.find? (fun u => decide (u.id = user_id)) with
  | none => (Except.error Err.httpNotFound, s)
  | some _ =>
      (Except.ok (),
        { users := s.users.filter (fun u => !decide (u.id = user_id)),
          transactions := s.transactions.map (fun t =>
            if t.user_id = some user_id then { t with user_id := none } else t),
          budgets := s.budgets.map (fun b =>
            if b.user_id = some user_id then { b with user_id := none } else b) })

/-- extend_budget (src/main.py:172): 404 when no budget row matches,
otherwise overwrite end_date with the new value, unconditionally, and
return the updated row. -/
def extend_budget (s : State) (budget_id : Int) (new_end_date : DT) : Except Err Budget × State :=
  match s.budgets.find? (fun b => decide (b.id = budget_id)) with
  | none => (Except.error Err.httpNotFound, s)
  | some b =>
      (Except.ok { b with end_date := new_end_date },
        { s with budgets := s.budgets.map (fun c =>
            if c.id = budget_id then { c with end_date := new_end_date } else c) })

/-- check_budget_exceeded (src/main.py:182): looks the budget up with no
None check, so an absent budget makes db_budget.user_id raise
AttributeError.  The SQL sum over same-user same-category transactions
is None when no row matches, and None > float raises TypeError;
otherwise returns spent > amount. -/
def check_budget_exceeded (s : State) (budget_id : Int) : Except Err Bool :=
  match s.budgets.find? (fun b => decide (b.id = budget_id)) with
  | none => Except.error Err.attrOnNone
  | some b =>
      match sqlSum ((s.transactions.filter (fun t =>
          optEq t.user_id b.user_id && t.category == b.category)).map Transaction.amount) with
      | none => Except.error Err.typeOnNone
      | some spent => Except.ok (decide (b.amount < spent))

/-- get_budget_utilization (src/main.py:201): looks the budget up with
no None check (absent budget: AttributeError).  When amount > 0 it
divides the SQL sum by amount (None / float raises TypeError when no
transaction matches); when amount <= 0 the conditional expression yields
0 without evaluating the division. -/
def get_budget_utilization (s : State) (budget_id : Int) : Except Err Rat :=
  match s.budgets.find? (fun b => decide (b.id = budget_id)) with
  | none => Except.error Err.attrOnNone
  | some b =>
      let spent := sqlSum ((s.transactions.filter (fun t =>
          optEq t.user_id b.user_id && t.category == b.category)).map Transaction.amount)
      if 0 < b.amount then
        match spent with
        | none => Except.error Err.typeOnNone
        | some sp => Except.ok (sp / b.amount)
      else Except.ok 0

/-- get_monthly_spending_report (src/main.py:209): start is
now.replace(day=1), i.e. the first day of the current month at the
current time-of-day; end is (start + 31 days).replace(day=1); the SQL
sum ranges over the rows of the user with start <= date < end and is
None when no row matches. -/
def get_monthly_spending_report (s : State) (user_id : Int) (now : DT) : Option Rat :=
  let start_date := replaceDay1 now
  let end_date := replaceDay1 (addDays 31 start_date)
  sqlSum ((s.transactions.filter (fun t =>
      optEq t.user_id (some user_id) && DT.ble start_date t.date
        && DT.blt t.date end_date)).map Transaction.amount)

/-- SUM of the amounts of the transactions of one category (the per-group
aggregate of the GROUP BY query in src/main.py:218). -/
def catSum (s : State) (c : String) : Rat :=
  ((s.transactions.filter (fun t => t.category == c)).map Transaction.amount).sum

/-- The distinct categories of a row list, one entry per category, as
GROUP BY produces. -/
def distinct : List String → List String
  | [] => []
  | c :: cs => if c ∈ cs then distinct cs else c :: distinct cs

/-- The (category, summed amount) rows of the GROUP BY query. -/
def groupRows (s : State) : List (String × Rat) :=
  (distinct (s.transactions.map Transaction.category)).map (fun c => (c, catSum s c))

/-- One fold step of taking the row with the largest sum (ORDER BY
sum DESC then first()); ties keep the earlier row. -/
def pickStep (best x : String × Rat) : String × Rat := if best.2 < x.2 then x else best

/-- first() of the rows ordered by summed amount descending: the row
with the largest sum, or None when there are no rows. -/
def pickMax : List (String × Rat) → Option (String × Rat)
  | [] => none
  | r :: rs => some (rs.foldl pickStep r)

/-- get_highest_spending_category (src/main.py:217): the GROUP BY row
with the largest summed amount; with zero transactions first() is None
and result[0] raises TypeError (None is not subscriptable). -/
def get_highest_spending_category (s : State) : Except Err (String × Rat) :=
  match pickMax (groupRows s) with
  | none => Except.error Err.typeOnNone
  | some r => Except.ok r

/-- SQL equality of a nullable column against a non-null value holds
exactly on that value. -/
theorem optEq_some_iff (a : Option Int) (x : Int) : optEq a (some x) = true ↔ a = some x := by
  cases a <;> simp [optEq]

/-- C1 (as stated, refuted): with no budget stored, IsExceeded(1) and
the utilization endpoint both fail with an AttributeError from
dereferencing None, not with the NotFound signal the claim names. -/
theorem c1_counterexample :
    check_budget_exceeded ⟨[], [], []⟩ 1 = Except.error Err.attrOnNone ∧
    check_budget_exceeded ⟨[], [], []⟩ 1 ≠ Except.error Err.httpNotFound ∧
    get_budget_utilization ⟨[], [], []⟩ 1 = Except.error Err.attrOnNone ∧
    get_budget_utilization ⟨[], [], []⟩ 1 ≠ Except.error Err.httpNotFound := by
  decide

/-- C1 amended: for every stored state and every budgetId that does not
identify an existing Budget, IsExceeded(budgetId) and the utilization
endpoint each fail with an unhandled AttributeError (the budget query
returns None and its user_id attribute is read), not with NotFound. -/
theorem c1_absent_budget_error (s : State) (bid : Int) (h : ∀ b ∈ s.budgets, b.id ≠ bid) :
    check_budget_exceeded s bid = Except.error Err.attrOnNone ∧
    get_budget_utilization s bid = Except.error Err.attrOnNone := by
  have hf : s.budgets.find? (fun b => decide (b.id = bid)) = none := by
    rw [List.find?_eq_none]
    intro b hb
    simp [h b hb]
  constructor
  · unfold check_budget_exceeded
    rw [hf]
  · unfold get_budget_utilization
    rw [hf]

/-- C1 witness: a state holding one budget with id 2; looking up id 1
hits the AttributeError branch of both endpoints. -/
theorem c1_absent_budget_error_witness :
    check_budget_exceeded
        ⟨[], [], [⟨2, "b", 100, "food", ⟨2024, 1, 1, 0⟩, ⟨2024, 12, 31, 0⟩, some 1⟩]⟩ 1 =
      Except.error Err.attrOnNone ∧
    get_budget_utilization
        ⟨[], [], [⟨2, "b", 100, "food", ⟨2024, 1, 1, 0⟩, ⟨2024, 12, 31, 0⟩, some 1⟩]⟩ 1 =
      Except.error Err.attrOnNone :=
  c1_absent_budget_error _ 1 (by decide)

/-- A budget for user 1 in category food with no stored transaction: the
input on which IsExceeded diverges from claim C2. -/
def c2_state : State :=
  ⟨[⟨1, "u", "u@x"⟩], [], [⟨1, "b", 100, "food", ⟨2024, 1, 1, 0⟩, ⟨2024, 12, 31, 0⟩, some 1⟩]⟩

/-- C2 (code bug, documented in the spec itself): on a fresh budget with
no matching transaction the SQL sum is None and the comparison
None > amount raises TypeError, where the claim (and the spec's stated
intent) is that IsExceeded returns false. -/
theorem c2_bug_eval : check_budget_exceeded c2_state 1 = Except.error Err.typeOnNone := by
  decide

/-- C2 supporting fact: whenever at least one same-user same-category
transaction exists, IsExceeded does return the strict comparison of the
summed matching amounts against the budget amount, as the claim says. -/
theorem c2_nonempty_spend_ok (s : State) (b : Budget)
    (hfind : s.budgets.find? (fun c => decide (c.id = b.id)) = some b)
    (hne : (s.transactions.filter (fun t =>
      optEq t.user_id b.user_id && t.category == b.category)) ≠ []) :
    check_budget_exceeded s b.id =
      Except.ok (decide (b.amount <
        ((s.transactions.filter (fun t =>
          optEq t.user_id b.user_id && t.category == b.category)).map Transaction.amount).sum)) := by
  cases hl : s.transactions.filter (fun t =>
      optEq t.user_id b.user_id && t.category == b.category) with
  | nil => exact absurd hl hne
  | cons a l =>
      unfold check_budget_exceeded
      simp only [hfind]
      rw [hl]
      simp [sqlSum, List.map_cons]

/-- C2 supporting witness: one matching 150 transaction against a 100
budget makes IsExceeded return true. -/
theorem c2_nonempty_spend_ok_witness :
    check_budget_exceeded
        ⟨[⟨1, "u", "u@x"⟩],
         [⟨1, "t", 150, ⟨2024, 2, 1, 0⟩, "food", some 1⟩],
         [⟨1, "b", 100, "food", ⟨2024, 1, 1, 0⟩, ⟨2024, 12, 31, 0⟩, some 1⟩]⟩ 1 =
      Except.ok (decide ((100 : Rat) <
        ([(150 : Rat)]).sum)) :=
  c2_nonempty_spend_ok _ ⟨1, "b", 100, "food", ⟨2024, 1, 1, 0⟩, ⟨2024, 12, 31, 0⟩, some 1⟩
    (by decide) (by decide)

/-- The state of the C4 counterexample: one user owning one transaction. -/
def c4_state : State :=
  ⟨[⟨1, "u", "u@x"⟩], [⟨1, "t", 5, ⟨2024, 1, 1, 0⟩, "c", some 1⟩], []⟩

/-- C4 (as stated, refuted): deleting user 1 succeeds but the surviving
child transaction does not keep the dangling reference some 1 the claim
requires; SQLAlchemy's default relationship cascade nulls the foreign
key out instead. -/
theorem c4_counterexample :
    (delete_user c4_state 1).1 = Except.ok () ∧
    (delete_user c4_state 1).2 ≠
      ⟨[], [⟨1, "t", 5, ⟨2024, 1, 1, 0⟩, "c", some 1⟩], []⟩ ∧
    (delete_user c4_state 1).2 =
      ⟨[], [⟨1, "t", 5, ⟨2024, 1, 1, 0⟩, "c", none⟩], []⟩ := by
  decide

/-- C4 amended: Delete(id) on an absent id fails with NotFound and
changes nothing; on an existing id it removes the User row and keeps
every child Transaction and Budget row, but each former child's user
reference is set to null (detached) rather than left dangling at the
deleted id. -/
theorem c4_delete_user (s : State) (uid : Int) :
    ((∀ u ∈ s.users, u.id ≠ uid) → delete_user s uid = (Except.error Err.httpNotFound, s)) ∧
    ((∃ u ∈ s.users, u.id = uid) → delete_user s uid =
      (Except.ok (),
        { users := s.users.filter (fun u => !decide (u.id = uid)),
          transactions := s.transactions.map (fun t =>
            if t.user_id = some uid then { t with user_id := none } else t),
          budgets := s.budgets.map (fun b =>
            if b.user_id = some uid then { b with user_id := none } else b) })) := by
  constructor
  · intro h
    have hf : s.users.find? (fun u => decide (u.id = uid)) = none := by
      rw [List.find?_eq_none]
      intro u hu
      simp [h u hu]
    unfold delete_user
    rw [hf]
  · rintro ⟨u, hu, hid⟩
    cases hfind : s.users.find? (fun u => decide (u.id = uid)) with
    | none =>
        have := List.find?_eq_none.mp hfind u hu
        simp [hid] at this
    | some v =>
        unfold delete_user
        rw [hfind]

/-- C4 witness: deleting the present user 1 detaches its transaction. -/
theorem c4_delete_user_witness :
    (delete_user c4_state 1).2.transactions =
      [⟨1, "t", 5, ⟨2024, 1, 1, 0⟩, "c", none⟩] := by
  have h := (c4_delete_user c4_state 1).2 ⟨⟨1, "u", "u@x"⟩, by decide, rfl⟩
  rw [h]
  decide

/-- C5: ExtendEndDate on an absent budgetId fails with NotFound and
leaves the whole state unchanged; on an existing budget it overwrites
that budget's end_date with the new value unconditionally (no ordering
check against start_date or the old end_date), touching nothing else. -/
theorem c5_extend_budget (s : State) (bid : Int) (nd : DT) :
    ((∀ b ∈ s.budgets, b.id ≠ bid) →
      extend_budget s bid nd = (Except.error Err.httpNotFound, s)) ∧
    ((∃ b ∈ s.budgets, b.id = bid) →
      (extend_budget s bid nd).2.users = s.users ∧
      (extend_budget s bid nd).2.transactions = s.transactions ∧
      (extend_budget s bid nd).2.budgets = s.budgets.map (fun c =>
        if c.id = bid then { c with end_date := nd } else c)) := by
  constructor
  · intro h
    have hf : s.budgets.find? (fun b => decide (b.id = bid)) = none := by
      rw [List.find?_eq_none]
      intro b hb
      simp [h b hb]
    unfold extend_budget
    rw [hf]
  · rintro ⟨b, hb, hid⟩
    cases hfind : s.budgets.find? (fun b => decide (b.id = bid)) with
    | none =>
        have := List.find?_eq_none.mp hfind b hb
        simp [hid] at this
    | some v =>
        unfold extend_budget
        rw [hfind]
        exact ⟨rfl, rfl, rfl⟩

/-- C5 witness: extending existing budget 1 rewrites only its end_date,
even to a date earlier than its start_date. -/
theorem c5_extend_budget_witness :
    (extend_budget
        ⟨[], [], [⟨1, "b", 100, "food", ⟨2024, 5, 1, 0⟩, ⟨2024, 6, 1, 0⟩, some 1⟩]⟩
        1 ⟨2020, 1, 1, 0⟩).2.budgets =
      [⟨1, "b", 100, "food", ⟨2024, 5, 1, 0⟩, ⟨2020, 1, 1, 0⟩, some 1⟩] := by
  have h := (c5_extend_budget
      ⟨[], [], [⟨1, "b", 100, "food", ⟨2024, 5, 1, 0⟩, ⟨2024, 6, 1, 0⟩, some 1⟩]⟩
      1 ⟨2020, 1, 1, 0⟩).2
    ⟨⟨1, "b", 100, "food", ⟨2024, 5, 1, 0⟩, ⟨2024, 6, 1, 0⟩, some 1⟩, by decide, rfl⟩
  rw [h.2.2]
  decide

/-- C6: for an existing budget whose amount is 0, the utilization
endpoint returns exactly 0, whatever the matching spend is: the Python
conditional takes its else branch without evaluating the division. -/
theorem c6_util_zero_amount (s : State) (b : Budget)
    (hfind : s.budgets.find? (fun c => decide (c.id = b.id)) = some b)
    (h0 : b.amount = 0) :
    get_budget_utilization s b.id = Except.ok 0 := by
  unfold get_budget_utilization
  rw [hfind]
  simp [h0]

/-- C6 witness: a zero-amount budget with a matching 50 transaction (and
thus a non-null spend) still yields utilization 0. -/
theorem c6_util_zero_amount_witness :
    get_budget_utilization
        ⟨[⟨1, "u", "u@x"⟩],
         [⟨1, "t", 50, ⟨2024, 2, 1, 0⟩, "food", some 1⟩],
         [⟨1, "b", 0, "food", ⟨2024, 1, 1, 0⟩, ⟨2024, 12, 31, 0⟩, some 1⟩]⟩ 1 =
      Except.ok 0 :=
  c6_util_zero_amount _ ⟨1, "b", 0, "food", ⟨2024, 1, 1, 0⟩, ⟨2024, 12, 31, 0⟩, some 1⟩
    (by decide) rfl

/-- C7: TotalSpentByUser(userId) returns the sum of the amounts of that
user's transactions when at least one exists, and returns null (not an
error) when the user has none: SQL SUM over zero rows is None. -/
theorem c7_total_spent (s : State) (uid : Int) :
    ((∃ t ∈ s.transactions, t.user_id = some uid) →
      get_total_spent s uid =
        some (((s.transactions.filter (fun t =>
          optEq t.user_id (some uid))).map Transaction.amount).sum)) ∧
    ((∀ t ∈ s.transactions, t.user_id ≠ some uid) → get_total_spent s uid = none) := by
  constructor
  · rintro ⟨t, ht, htu⟩
    have hmem : t ∈ s.transactions.filter (fun t => optEq t.user_id (some uid)) :=
      List.mem_filter.mpr ⟨ht, (optEq_some_iff _ _).mpr htu⟩
    cases hl : s.transactions.filter (fun t => optEq t.user_id (some uid)) with
    | nil =>
        rw [hl] at hmem
        exact absurd hmem (List.not_mem_nil t)
    | cons a l =>
        unfold get_total_spent
        rw [hl, List.map_cons]
        rfl
  · intro h
    have hf : s.transactions.filter (fun t => optEq t.user_id (some uid)) = [] := by
      rw [List.filter_eq_nil_iff]
      intro t ht
      simp [optEq_some_iff, h t ht]
    unfold get_total_spent
    rw [hf, List.map_nil]
    rfl

/-- C7 witness: user 1 owns one 10 transaction, user 2 owns none; the
first gets its sum back, the second gets null. -/
theorem c7_total_spent_witness :
    get_total_spent ⟨[], [⟨1, "t", 10, ⟨2024, 1, 1, 0⟩, "c", some 1⟩], []⟩ 1 =
      some (([(10 : Rat)]).sum) ∧
    get_total_spent ⟨[], [⟨1, "t", 10, ⟨2024, 1, 1, 0⟩, "c", some 1⟩], []⟩ 2 = none :=
  ⟨(c7_total_spent _ 1).1 ⟨⟨1, "t", 10, ⟨2024, 1, 1, 0⟩, "c", some 1⟩, by decide, rfl⟩,
   (c7_total_spent _ 2).2 (by decide)⟩

/-- Thirty-one exact days after the first of a month, with the day then
replaced by 1, is the first of the following month at the same
time-of-day: the computation the monthly report uses for its end bound. -/
theorem addDays31_day1 (y m s : Nat) (h1 : 1 ≤ m) (h2 : m ≤ 12) :
    replaceDay1 (addDays 31 ⟨y, m, 1, s⟩) =
      ⟨(nextMonth y m).1, (nextMonth y m).2, 1, s⟩ := by
  interval_cases m
  · simp [addDays, addOneDay, daysInMonth, replaceDay1, nextMonth]
  · cases h : isLeap y <;>
      simp [addDays, addOneDay, daysInMonth, replaceDay1, nextMonth, h]
  · simp [addDays, addOneDay, daysInMonth, replaceDay1, nextMonth]
  · simp [addDays, addOneDay, daysInMonth, replaceDay1, nextMonth]
  · simp [addDays, addOneDay, daysInMonth, replaceDay1, nextMonth]
  · simp [addDays, addOneDay, daysInMonth, replaceDay1, nextMonth]
  · simp [addDays, addOneDay, daysInMonth, replaceDay1, nextMonth]
  · simp [addDays, addOneDay, daysInMonth, replaceDay1, nextMonth]
  · simp [addDays, addOneDay, daysInMonth, replaceDay1, nextMonth]
  · simp [addDays, addOneDay, daysInMonth, replaceDay1, nextMonth]
  · simp [addDays, addOneDay, daysInMonth, replaceDay1, nextMonth]
  · simp [addDays, addOneDay, daysInMonth, replaceDay1, nextMonth]

/-- The month window claim C3 ascribes to MonthlySpending: the plain sum
of the amounts of the user's transactions with timestamp in the half-open
interval from the first instant of the current calendar month to the
first instant of the next one.  Written from the claim's words, to be
compared against the embedded code. -/
def claimed_monthly_spending (s : State) (user_id : Int) (now : DT) : Rat :=
  ((s.transactions.filter (fun t =>
      optEq t.user_id (some user_id)
        && DT.ble ⟨now.year, now.month, 1, 0⟩ t.date
        && DT.blt t.date ⟨(nextMonth now.year now.month).1, (nextMonth now.year now.month).2, 1, 0⟩)).map
    Transaction.amount).sum

/-- The C3 counterexample instant: January 15th, one hour past midnight. -/
def c3_now : DT := ⟨2024, 1, 15, 3600⟩

/-- The C3 counterexample state: user 1 has a single 10 transaction at
the first instant of that January. -/
def c3_state : State := ⟨[], [⟨1, "t", 10, ⟨2024, 1, 1, 0⟩, "c", some 1⟩], []⟩

/-- C3 (as stated, refuted): the only transaction of the month lies in
the claimed calendar-month window (so the claim demands its sum, 10),
but because now.replace(day=1) keeps the one-hour time-of-day the code
filters it out and its SQL sum of zero rows returns None. -/
theorem c3_counterexample :
    get_monthly_spending_report c3_state 1 c3_now = none ∧
    get_monthly_spending_report c3_state 1 c3_now ≠
      some (claimed_monthly_spending c3_state 1 c3_now) ∧
    claimed_monthly_spending c3_state 1 c3_now = 10 := by
  refine ⟨by decide, by decide, ?_⟩
  simp only [claimed_monthly_spending, c3_state, c3_now, nextMonth]
  norm_num [optEq, DT.ble, DT.blt, List.filter_cons, List.filter_nil,
    List.map_cons, List.map_nil, List.sum_cons, List.sum_nil]

/-- C3 amended: MonthlySpending(userId) returns the SQL sum (null when
no row matches) of the amounts of that user's transactions whose
timestamp lies in the half-open interval from the first day of the
current month at now's time-of-day (inclusive) to the first day of the
next month at now's time-of-day (exclusive). -/
theorem c3_monthly_window (s : State) (uid : Int) (now : DT)
    (h1 : 1 ≤ now.month) (h2 : now.month ≤ 12) :
    get_monthly_spending_report s uid now =
      sqlSum ((s.transactions.filter (fun t =>
        optEq t.user_id (some uid)
          && DT.ble ⟨now.year, now.month, 1, now.sod⟩ t.date
          && DT.blt t.date ⟨(nextMonth now.year now.month).1,
              (nextMonth now.year now.month).2, 1, now.sod⟩)).map Transaction.amount) := by
  have hkey : replaceDay1 (addDays 31 (replaceDay1 now)) =
      (⟨(nextMonth now.year now.month).1, (nextMonth now.year now.month).2, 1, now.sod⟩ : DT) := by
    have hrep : replaceDay1 now = (⟨now.year, now.month, 1, now.sod⟩ : DT) := rfl
    rw [hrep]
    exact addDays31_day1 now.year now.month now.sod h1 h2
  simp only [get_monthly_spending_report]
  rw [hkey]
  rfl

/-- C3 witness: at the counterexample instant the amended window (first
of January at 01:00 to first of February at 01:00) is what the report
filters by, and it excludes the midnight transaction, giving null. -/
theorem c3_monthly_window_witness :
    get_monthly_spending_report c3_state 1 c3_now =
      sqlSum ((c3_state.transactions.filter (fun t =>
        optEq t.user_id (some 1)
          && DT.ble ⟨2024, 1, 1, 3600⟩ t.date
          && DT.blt t.date ⟨2024, 2, 1, 3600⟩)).map Transaction.amount) ∧
    get_monthly_spending_report c3_state 1 c3_now = none := by
  constructor
  · exact c3_monthly_window c3_state 1 c3_now (by decide) (by decide)
  · decide

/-- Membership in the distinct-category list is membership in the
original list. -/
theorem mem_distinct (l : List String) (a : String) : a ∈ distinct l ↔ a ∈ l := by
  induction l with
  | nil => simp [distinct]
  | cons c cs ih =>
      by_cases hc : c ∈ cs
      · simp only [distinct, if_pos hc, ih, List.mem_cons]
        constructor
        · intro h
          exact Or.inr h
        · rintro (rfl | h)
          · exact hc
          · exact h
      · simp only [distinct, if_neg hc, List.mem_cons, ih]

/-- The row the max-picking fold returns is one of the folded rows. -/
theorem pickFold_mem (rs : List (String × Rat)) (r : String × Rat) :
    rs.foldl pickStep r ∈ r :: rs := by
  induction rs generalizing r with
  | nil => simp
  | cons a l ih =>
      have h := ih (pickStep r a)
      simp only [List.foldl_cons]
      rcases List.mem_cons.mp h with h1 | h1
      · rw [h1]
        by_cases hc : r.2 < a.2
        · simp [pickStep, hc]
        · simp [pickStep, hc]
      · exact List.mem_cons_of_mem _ (List.mem_cons_of_mem _ h1)

/-- Every folded row's sum is at most the sum of the row the
max-picking fold returns. -/
theorem pickFold_ge (rs : List (String × Rat)) (r x : String × Rat) (hx : x ∈ r :: rs) :
    x.2 ≤ (rs.foldl pickStep r).2 := by
  induction rs generalizing r x with
  | nil =>
      rcases List.mem_cons.mp hx with h | h
      · rw [h]
        simp
      · exact absurd h (List.not_mem_nil x)
  | cons a l ih =>
      simp only [List.foldl_cons]
      have hr : r.2 ≤ (pickStep r a).2 := by
        by_cases hc : r.2 < a.2
        · simp only [pickStep, if_pos hc]
          exact le_of_lt hc
        · simp only [pickStep, if_neg hc]
          exact le_refl _
      have ha : a.2 ≤ (pickStep r a).2 := by
        by_cases hc : r.2 < a.2
        · simp only [pickStep, if_pos hc]
          exact le_refl _
        · simp only [pickStep, if_neg hc]
          exact le_of_not_lt hc
      have hhead : (pickStep r a).2 ≤ (l.foldl pickStep (pickStep r a)).2 :=
        ih (pickStep r a) (pickStep r a) (List.mem_cons_self _ _)
      rcases List.mem_cons.mp hx with h | h
      · rw [h]
        exact le_trans hr hhead
      · rcases List.mem_cons.mp h with h2 | h2
        · rw [h2]
          exact le_trans ha hhead
        · exact ih (pickStep r a) x (List.mem_cons_of_mem _ h2)

/-- The three-transaction state of the worked example in claim C8. -/
def c8_state : State :=
  ⟨[], [⟨1, "t1", 30, ⟨2024, 1, 1, 0⟩, "A", some 1⟩,
        ⟨2, "t2", 50, ⟨2024, 1, 2, 0⟩, "B", some 1⟩,
        ⟨3, "t3", 10, ⟨2024, 1, 3, 0⟩, "A", some 1⟩], []⟩

/-- C8: with at least one transaction, HighestSpendingCategory returns a
category whose summed amount is at least every other category's sum,
paired with that sum; over the transactions A:30, B:50, A:10 it returns
B with total 50; with zero transactions it fails with the unhandled
TypeError of subscripting the None row. -/
theorem c8_highest_category (s : State) :
    (s.transactions = [] → get_highest_spending_category s = Except.error Err.typeOnNone) ∧
    (s.transactions ≠ [] →
      ∃ c, get_highest_spending_category s = Except.ok (c, catSum s c) ∧
        ∀ t ∈ s.transactions, catSum s t.category ≤ catSum s c) ∧
    get_highest_spending_category c8_state = Except.ok ("B", 50) := by
  refine ⟨?_, ?_, ?_⟩
  · intro h
    simp [get_highest_spending_category, groupRows, h, distinct, pickMax]
  · intro hne
    obtain ⟨t0, ht0⟩ := List.exists_mem_of_ne_nil _ hne
    have hrow0 : (t0.category, catSum s t0.category) ∈ groupRows s :=
      List.mem_map.mpr ⟨t0.category,
        (mem_distinct _ _).mpr (List.mem_map.mpr ⟨t0, ht0, rfl⟩), rfl⟩
    cases hg : groupRows s with
    | nil =>
        rw [hg] at hrow0
        exact absurd hrow0 (List.not_mem_nil _)
    | cons r rs =>
        have hres_mem : rs.foldl pickStep r ∈ groupRows s := by
          rw [hg]
          exact pickFold_mem rs r
        obtain ⟨c, hc, hceq⟩ := List.mem_map.mp hres_mem
        refine ⟨c, ?_, ?_⟩
        · unfold get_highest_spending_category
          rw [hg]
          simp only [pickMax]
          rw [← hceq]
        · intro t ht
          have hrow : (t.category, catSum s t.category) ∈ groupRows s :=
            List.mem_map.mpr ⟨t.category,
              (mem_distinct _ _).mpr (List.mem_map.mpr ⟨t, ht, rfl⟩), rfl⟩
          rw [hg] at hrow
          have hle := pickFold_ge rs r _ hrow
          calc catSum s t.category
              = ((t.category, catSum s t.category) : String × Rat).2 := rfl
            _ ≤ (rs.foldl pickStep r).2 := hle
            _ = catSum s c := by rw [← hceq]
  · have hfB : c8_state.transactions.filter (fun t => t.category == "B") =
        [⟨2, "t2", 50, ⟨2024, 1, 2, 0⟩, "B", some 1⟩] := by decide
    have hfA : c8_state.transactions.filter (fun t => t.category == "A") =
        [⟨1, "t1", 30, ⟨2024, 1, 1, 0⟩, "A", some 1⟩,
         ⟨3, "t3", 10, ⟨2024, 1, 3, 0⟩, "A", some 1⟩] := by decide
    have hsB : catSum c8_state "B" = 50 := by
      unfold catSum
      rw [hfB]
      norm_num [List.map_cons, List.map_nil, List.sum_cons, List.sum_nil]
    have hsA : catSum c8_state "A" = 40 := by
      unfold catSum
      rw [hfA]
      norm_num [List.map_cons, List.map_nil, List.sum_cons, List.sum_nil]
    have hdist : distinct (c8_state.transactions.map Transaction.category) = ["B", "A"] := by
      decide
    have hrows : groupRows c8_state = [("B", (50 : Rat)), ("A", (40 : Rat))] := by
      unfold groupRows
      rw [hdist]
      simp only [List.map_cons, List.map_nil]
      rw [hsB, hsA]
    unfold get_highest_spending_category
    rw [hrows]
    norm_num [pickMax, pickStep]

/-- C8 witness: on the worked example state the nonempty branch yields a
maximising category. -/
theorem c8_highest_category_witness :
    ∃ c, get_highest_spending_category c8_state = Except.ok (c, catSum c8_state c) ∧
      ∀ t ∈ c8_state.transactions, catSum c8_state t.category ≤ catSum c8_state c :=
  (c8_highest_category c8_state).2.1 (by decide)

/-- C9: ListByDateRange(start, end) returns exactly the transactions, of
all users, whose timestamp t satisfies start <= t <= end, inclusive on
both ends: a transaction dated exactly start or exactly end (for a
well-ordered range) appears in the result. -/
theorem c9_date_range_inclusive (s : State) (a b : DT) (t : Transaction) :
    (t ∈ filter_transactions_by_date s a b ↔
      t ∈ s.transactions ∧ DT.ble a t.date = true ∧ DT.ble t.date b = true) ∧
    (DT.ble a b = true → t ∈ s.transactions → t.date = a ∨ t.date = b →
      t ∈ filter_transactions_by_date s a b) := by
  have hrefl : ∀ d : DT, DT.ble d d = true := by
    intro d
    simp [DT.ble]
  constructor
  · simp [filter_transactions_by_date, List.mem_filter, Bool.and_eq_true]
  · intro hab ht hor
    have hmem : t ∈ s.transactions ∧ DT.ble a t.date = true ∧ DT.ble t.date b = true := by
      rcases hor with h | h
      · exact ⟨ht, by rw [h]; exact hrefl a, by rw [h]; exact hab⟩
      · exact ⟨ht, by rw [h]; exact hab, by rw [h]; exact hrefl b⟩
    simpa [filter_transactions_by_date, List.mem_filter, Bool.and_eq_true] using hmem

/-- C9 witness: on a two-transaction state, the transaction dated exactly
at the range start is returned. -/
theorem c9_date_range_inclusive_witness :
    (⟨1, "t1", 5, ⟨2024, 3, 1, 0⟩, "food", some 1⟩ : Transaction) ∈
      filter_transactions_by_date
        ⟨[], [⟨1, "t1", 5, ⟨2024, 3, 1, 0⟩, "food", some 1⟩,
              ⟨2, "t2", 7, ⟨2024, 5, 9, 0⟩, "fun", some 1⟩], []⟩
        ⟨2024, 3, 1, 0⟩ ⟨2024, 3, 31, 0⟩ :=
  (c9_date_range_inclusive _ _ _ _).2 (by decide) (by decide) (Or.inl rfl)

/-- C10: TransactionCountByCategory(c) equals the length of the list
returned by ListByCategory(c) on the same state: both run the same
exact-match category filter. -/
theorem c10_count_matches_list (s : State) (c : String) :
    get_transactions_count_by_category s c = (filter_transactions_by_category s c).length := rfl

end BudgetEase
